import Mathlib

/-!
Verification development for the g2core feedhold / operation-sequencing core
(src/g2core/cycle_feedhold.cpp).

The development is a shallow embedding of the active code of that file.
Large commented-out regions of the source (the superseded state-machine
design) are not embedded; only the compiled code is.  Machine floats are
modelled as Int (the embedded claims depend only on copying and on
zero tests, never on rounding), and the fixed-size C arrays are modelled
as Lists with the source lengths.

External collaborators (planner, runtime, spindle, coolant, status
reports, canonical-machine setters) are not part of the source file; their
calls are recorded in an explicit event trace, and the few whose result
feeds back into this file (planner_reset, cm_reset_position_to_absolute_position,
cm_set_g30_position, cm_set_distance_mode, the hold-point transition of
plan_exec) are modelled from the specification, each marked in its doc
comment.
-/

namespace G2Feedhold

/-- Status codes (stat_t) used by the embedded code.  Any other error code
is represented by err. -/
inductive Stat where
  | ok
  | eagain
  | noop
  | commandNotAccepted
  | inputExceedsMaxLength
  | err (code : Nat)
deriving DecidableEq, Repr

/-- PARAM_MAX of the source: maximum number of parameters passed to an action. -/
def PARAM_MAX : Nat := 4

/-- ACTION_MAX of the source: maximum actions that can be queued for an operation. -/
def ACTION_MAX : Nat := 12

/-- cmAction of the source.  The diagnostic field number and the static
next-link nx are represented structurally: slot i links to slot i+1 and
the nx of the last slot is NULL, so the next-link of slot i is i+1 with
the value ACTION_MAX (= 12) standing for the NULL pointer.  func = none
models a NULL function pointer (a disabled slot). -/
structure CmAction (α : Type) where
  func : Option α
  param : List Int
deriving DecidableEq, Repr

/-- CmAction.reset of the source: clears only the function pointer.  The
parameter buffer is left as it was. -/
def CmAction.reset (a : CmAction α) : CmAction α :=
  { a with func := none }

/-- cmOperation of the source.  add and run are the two cursors (pointers
in C); the value ACTION_MAX encodes the NULL pointer reached after the
last slot. -/
structure CmOperation (α : Type) where
  action : List (CmAction α)
  add : Nat
  run : Nat
  in_operation : Bool
deriving DecidableEq, Repr

/-- cmOperation::reset of the source: every slot has its function pointer
cleared (parameters are preserved, since cmAction::reset only clears func),
both cursors return to slot 0, and in_operation is cleared. -/
def CmOperation.reset (op : CmOperation α) : CmOperation α :=
  { action := op.action.map CmAction.reset
    add := 0
    run := 0
    in_operation := false }

/-- The global operations-runner object op after cm_operation_init(): the C
global is zero-initialized (all parameters 0.0, all function pointers NULL)
and then reset. -/
def CmOperation.initial : CmOperation α :=
  { action := List.replicate ACTION_MAX { func := none, param := List.replicate PARAM_MAX 0 }
    add := 0
    run := 0
    in_operation := false }

/-- Default slot used when dereferencing a slot index (never reached for
indices below ACTION_MAX on lists of the source length). -/
def dfltAction : CmAction α := { func := none, param := [] }

/-- Parameter copy loop of add_action: for i in 0..PARAM_MAX-1 copy
param[i] into the slot. -/
def copyParams (p : List Int) : List Int :=
  (List.range PARAM_MAX).map (fun i => p.getD i 0)

/-- cmOperation::add_action of the source.  Rejects while an operation is
running; reports overflow when the add cursor is the NULL end-of-list
pointer; otherwise installs the function in the slot under the add cursor,
copies the parameters into the slot when a parameter buffer is supplied
(when none is supplied the slot parameters are left as they were), and
advances the add cursor along the next-link. -/
def CmOperation.add_action (op : CmOperation α) (f : α) (p : Option (List Int)) :
    Stat × CmOperation α :=
  if op.in_operation then (.commandNotAccepted, op)
  else if op.add ≥ ACTION_MAX then (.inputExceedsMaxLength, op)
  else
    let slot := op.action.getD op.add dfltAction
    let slot' : CmAction α :=
      { func := some f
        param := match p with
                 | some q => copyParams q
                 | none => slot.param }
    (.ok, { op with action := op.action.set op.add slot', add := op.add + 1 })

/-- One invocation record of the runner: which action function ran and the
parameter buffer it was passed. -/
abbrev Trace (α : Type) := List (α × List Int)

/-- The while loop of cmOperation::run_operation.  exec interprets an
action function on the external state σ.  The loop is entered with the run
cursor on a slot holding a function; while the invocation returns ok the
run cursor advances along the next-link.  Reaching the NULL end-of-list
pointer (index ACTION_MAX) and dereferencing run->func there is undefined
behavior in the C source and is modelled as none.  An empty next slot
resets the runner and completes with ok; eagain suspends (cursors and
in_operation kept); any other status resets the runner and is returned. -/
def CmOperation.runLoop (exec : α → List Int → σ → Stat × σ) :
    Nat → CmOperation α → σ → Trace α → Option (Stat × CmOperation α × σ × Trace α)
  | 0, _, _, _ => none
  | fuel + 1, op, s, tr =>
    match (op.action.getD op.run dfltAction).func with
    | none => none
    | some f =>
      let r := exec f (op.action.getD op.run dfltAction).param s
      let tr' := tr ++ [(f, (op.action.getD op.run dfltAction).param)]
      if r.1 = .ok then
        let op' := { op with run := op.run + 1 }
        if op'.run ≥ ACTION_MAX then none
        else
          match (op'.action.getD op'.run dfltAction).func with
          | none => some (.ok, op'.reset, r.2, tr')
          | some _ => CmOperation.runLoop exec fuel op' r.2 tr'
      else if r.1 = .eagain then some (.eagain, op, r.2, tr')
      else some (r.1, op.reset, r.2, tr')

/-- cmOperation::run_operation of the source.  When the slot under the run
cursor is empty the call is a harmless noop.  Otherwise in_operation is set
and the loop runs.  A run cursor that already sits on the NULL end-of-list
pointer would be a NULL dereference (none).  The invocation trace is
returned alongside for the statements about execution order. -/
def CmOperation.run_operation (exec : α → List Int → σ → Stat × σ)
    (op : CmOperation α) (s : σ) : Option (Stat × CmOperation α × σ × Trace α) :=
  if op.run ≥ ACTION_MAX then none
  else
    match (op.action.getD op.run dfltAction).func with
    | none => some (.noop, op, s, [])
    | some _ =>
      CmOperation.runLoop exec (ACTION_MAX + 1) { op with in_operation := true } s []

/-! Concrete runner scenarios used by the Operation Runner claims. -/

/-- A trivial action over a unit state: always completes. -/
def trivExec : Unit → List Int → Unit → Stat × Unit :=
  fun _ _ _ => (.ok, ())

/-- Queue n copies of the trivial action into a fresh runner, collecting
the add_action statuses. -/
def queueTriv (n : Nat) : CmOperation Unit × List Stat :=
  (List.range n).foldl
    (fun acc _ =>
      let r := acc.1.add_action () (some [0, 0, 0, 0])
      (r.2, acc.2 ++ [r.1]))
    (CmOperation.initial, [])

/-- C1: the run_operation contract fails exactly at full capacity.  Twelve
add_action calls on an idle fresh runner all succeed, yet run_operation on
the resulting full queue of always-Complete actions advances the run
cursor past the last slot onto the NULL end-of-list pointer and
dereferences it (undefined behavior, modelled as none) instead of
resetting the runner and returning Complete.  With eleven queued actions
the claimed behavior holds: every action is invoked exactly once in
enqueue order with its stored parameters, the runner is reset, and the
result is Complete. -/
theorem run_operation_null_deref_at_full_capacity :
    (queueTriv 12).2 = List.replicate 12 Stat.ok
    ∧ CmOperation.run_operation trivExec (queueTriv 12).1 () = none
    ∧ CmOperation.run_operation trivExec (queueTriv 11).1 () =
        some (.ok, CmOperation.initial, (), List.replicate 11 ((), [0, 0, 0, 0])) :=
  ⟨by rfl, by rfl, by rfl⟩

/-! Concrete scenario refuting the zero-fill part of the add_action claim:
an action with parameters [1, 2, 3, 4] is queued and run to completion
(which resets the runner but, per cmAction::reset, preserves slot
parameters), then a second action is queued into the reused slot with no
parameter buffer. -/

/-- An always-Complete action family indexed by Nat over a unit state. -/
def natExec : Nat → List Int → Unit → Stat × Unit :=
  fun _ _ _ => (.ok, ())

/-- Runner after queueing action 7 with parameters [1, 2, 3, 4]. -/
def c9Op1 : CmOperation Nat :=
  (CmOperation.initial.add_action 7 (some [1, 2, 3, 4])).2

/-- Runner after running that operation to completion (reset: function
pointers cleared, parameters preserved). -/
def c9Op2 : CmOperation Nat :=
  match CmOperation.run_operation natExec c9Op1 () with
  | some r => r.2.1
  | none => CmOperation.initial

/-- Runner after queueing action 8 into the reused slot 0 with no
parameter buffer supplied. -/
def c9Op3 : CmOperation Nat :=
  (c9Op2.add_action 8 none).2

/-- C9 counterexample: add_action does not zero-fill the slot parameters
when no parameter buffer is supplied.  After a previous operation left
[1, 2, 3, 4] in slot 0, queueing a new action there with no parameters
leaves [1, 2, 3, 4] in place, which is not the zero-filled buffer the
claim requires. -/
theorem add_action_no_zero_fill_counterexample :
    c9Op2.in_operation = false
    ∧ c9Op2.add = 0
    ∧ (c9Op2.add_action 8 none).1 = .ok
    ∧ (c9Op3.action.getD 0 dfltAction).func = some 8
    ∧ (c9Op3.action.getD 0 dfltAction).param = [1, 2, 3, 4]
    ∧ [(1 : Int), 2, 3, 4] ≠ List.replicate PARAM_MAX 0 := by
  decide

/-- C9 (amended): add_action rejects while an operation is running,
reports capacity exceeded when the add cursor reached the end of the
twelve-slot list, and otherwise appends the action with success: the slot
under the add cursor receives the function and a copy of the supplied
parameter buffer — or keeps its previous parameter contents unchanged when
no buffer is supplied — the add cursor advances, and every other slot is
untouched. -/
theorem add_action_contract {α : Type} (op : CmOperation α) (f : α) (p : Option (List Int))
    (hlen : op.action.length = ACTION_MAX) :
    (op.in_operation = true → op.add_action f p = (.commandNotAccepted, op))
    ∧ (op.in_operation = false → ACTION_MAX ≤ op.add →
        op.add_action f p = (.inputExceedsMaxLength, op))
    ∧ (op.in_operation = false → op.add < ACTION_MAX →
        (op.add_action f p).1 = .ok
        ∧ (op.add_action f p).2.add = op.add + 1
        ∧ (op.add_action f p).2.run = op.run
        ∧ (op.add_action f p).2.in_operation = false
        ∧ ((op.add_action f p).2.action.getD op.add dfltAction).func = some f
        ∧ ((op.add_action f p).2.action.getD op.add dfltAction).param =
            (match p with
             | some q => copyParams q
             | none => (op.action.getD op.add dfltAction).param)
        ∧ ∀ i, i ≠ op.add →
            (op.add_action f p).2.action.getD i dfltAction = op.action.getD i dfltAction) := by
  refine ⟨fun hbusy => ?_, fun hidle hfull => ?_, fun hidle hroom => ?_⟩
  · simp [CmOperation.add_action, hbusy]
  · simp [CmOperation.add_action, hidle, hfull]
  · have hnotfull : ¬ ACTION_MAX ≤ op.add := Nat.not_le.mpr hroom
    have hlt : op.add < op.action.length := by rw [hlen]; exact hroom
    simp only [CmOperation.add_action, hidle, hnotfull, Bool.false_eq_true, if_false,
      ite_false]
    refine ⟨trivial, trivial, trivial, trivial, ?_, ?_, ?_⟩
    · simp [List.getD_eq_getElem?_getD, List.getElem?_set_eq_of_lt _ hlt]
    · cases p <;>
        simp [List.getD_eq_getElem?_getD, List.getElem?_set_eq_of_lt _ hlt]
    · intro i hi
      simp [List.getD_eq_getElem?_getD, List.getElem?_set_ne (Ne.symm hi)]

/-- Busy runner for the C9 witness. -/
def c9BusyOp : CmOperation Nat :=
  { CmOperation.initial with in_operation := true }

/-- Full runner for the C9 witness (add cursor on the NULL end pointer). -/
def c9FullOp : CmOperation Nat :=
  { CmOperation.initial with add := ACTION_MAX }

/-- C9 witness: the amended add_action contract evaluated at concrete
runners covering the rejected, overflowing and successful branches. -/
theorem add_action_contract_witness :
    c9BusyOp.add_action 5 none = (.commandNotAccepted, c9BusyOp)
    ∧ c9FullOp.add_action 5 none = (.inputExceedsMaxLength, c9FullOp)
    ∧ (CmOperation.initial.add_action (α := Nat) 5 (some [9, 9, 9, 9])).1 = .ok :=
  ⟨(add_action_contract c9BusyOp 5 none (by decide)).1 rfl,
   (add_action_contract c9FullOp 5 none (by decide)).2.1 rfl (by decide),
   ((add_action_contract CmOperation.initial 5 (some [9, 9, 9, 9]) (by decide)).2.2
      rfl (by decide)).1⟩

/-! Feedhold state machine: data model (canonical_machine state used by
cycle_feedhold.cpp). -/

/-- cmFeedholdState values used by the active code. -/
inductive FeedholdState where
  | off
  | requested
  | sync
  | holdActionStart
  | holdPending
  | holdDone
  | hold
  | holdExitPending
  | holdExitDone
deriving DecidableEq, Repr

/-- cmFeedholdType: selects the entry-action variant. -/
inductive FeedholdType where
  | actions
  | noActions
  | syncType
deriving DecidableEq, Repr

/-- cmFeedholdFinal: selects the termination-action variant.  endProg
models FEEDHOLD_FINAL_END. -/
inductive FeedholdFinal where
  | cycle
  | stop
  | endProg
  | alarm
  | shutdownFinal
  | interlock
deriving DecidableEq, Repr

/-- cmFlushState. -/
inductive FlushState where
  | off
  | requested
  | wasRun
deriving DecidableEq, Repr

/-- cmCycleState request flag (CYCLE_START_REQUESTED and not-requested). -/
inductive CycleState where
  | off
  | startRequested
deriving DecidableEq, Repr

/-- cmMotionState values relevant here. -/
inductive MotionState where
  | stop
  | run
  | holdMotion
deriving DecidableEq, Repr

/-- Gcode distance mode. -/
inductive DistanceMode where
  | absolute
  | incremental
deriving DecidableEq, Repr

/-- Gcode motion mode: the code forces MOTION_MODE_CANCEL_MOTION_MODE on
the secondary copy; every other mode is abstracted by other. -/
inductive MotionMode where
  | cancel
  | other (code : Nat)
deriving DecidableEq, Repr

/-- Selector for the two canonical-machine contexts (the value of the
global pointer cm). -/
inductive CmSel where
  | c1
  | c2
deriving DecidableEq, Repr

/-- Selector for the two planners (the value of the global pointer mp and
of the per-context handle cm->mp). -/
inductive PlannerSel where
  | p1
  | p2
deriving DecidableEq, Repr

/-- Selector for the two planner runtimes (the value of the global pointer
mr and of the per-planner handle mp->mr). -/
inductive RuntimeSel where
  | r1
  | r2
deriving DecidableEq, Repr

/-- Completion callbacks passed to mp_queue_command by this file. -/
inductive SyncTag where
  | feedholdSyncToPlanner
  | feedholdExitSyncToPlanner
deriving DecidableEq, Repr

/-- Calls into external collaborators, recorded as an event trace. -/
inductive Event where
  | spindlePause
  | spindleResume
  | coolantPause
  | coolantResume
  | setDistanceMode (m : DistanceMode)
  | straightTraverse (target : List Int) (flags : List Bool)
  | gotoG30 (target : List Int) (flags : List Bool)
  | srRequestImmediate
  | cycleStart
  | requestExecMove
  | cycleEnd
  | abortArc (c : CmSel)
  | plannerResetEvent (p : PlannerSel)
  | setG30 (c : CmSel)
  | resetPositionToAbsolute (c : CmSel)
deriving DecidableEq, Repr

/-- Gcode model gm of a context: the fields touched by the embedded code. -/
structure GcodeModel where
  motion_mode : MotionMode
  absolute_override : Bool
  feed_rate : Int
  distance_mode : DistanceMode
  target : List Int
  target_comp : List Int
deriving DecidableEq, Repr

/-- Extended Gcode model gmx of a context. -/
structure GcodeModelX where
  position : List Int
  g30_position : List Int
deriving DecidableEq, Repr

/-- cmMachine_t: one canonical-machine context (cm1 or cm2). -/
structure CmMachine where
  hold_state : FeedholdState
  hold_type : FeedholdType
  hold_final : FeedholdFinal
  flush_state : FlushState
  cycle_state : CycleState
  motion_state : MotionState
  feedhold_z_lift : Int
  gm : GcodeModel
  gmx : GcodeModelX
  return_flags : List Bool
  mp : PlannerSel
deriving DecidableEq, Repr

/-- A planner (mp1 or mp2): its recorded position, the number of runnable
buffers (only emptiness and non-emptiness are observed, through the
external mp_has_runnable_buffer), and its runtime handle mp->mr. -/
structure Planner where
  position : List Int
  nRunnable : Nat
  mr : RuntimeSel
deriving DecidableEq, Repr

/-- A planner runtime (mr1 or mr2): only its position is observed here. -/
structure Runtime where
  position : List Int
deriving DecidableEq, Repr

/-- The mutable global state outside the operations runner: both contexts,
both planners, both runtimes, the three active-handle globals cm, mp, mr,
the list of queued planner completion commands, and the external-call
event trace. -/
structure MachState where
  cm1 : CmMachine
  cm2 : CmMachine
  mp1 : Planner
  mp2 : Planner
  mr1 : Runtime
  mr2 : Runtime
  cm : CmSel
  mp : PlannerSel
  mr : RuntimeSel
  queued : List SyncTag
  events : List Event
deriving DecidableEq, Repr

/-- Dereference a context selector. -/
def MachState.getCm (s : MachState) : CmSel → CmMachine
  | .c1 => s.cm1
  | .c2 => s.cm2

/-- Store through a context selector. -/
def MachState.setCm (s : MachState) : CmSel → CmMachine → MachState
  | .c1, m => { s with cm1 := m }
  | .c2, m => { s with cm2 := m }

/-- Update the context under a selector. -/
def MachState.updCm (s : MachState) (sel : CmSel) (f : CmMachine → CmMachine) : MachState :=
  s.setCm sel (f (s.getCm sel))

/-- Dereference a planner selector. -/
def MachState.getPlanner (s : MachState) : PlannerSel → Planner
  | .p1 => s.mp1
  | .p2 => s.mp2

/-- Update the planner under a selector. -/
def MachState.updPlanner (s : MachState) (sel : PlannerSel) (f : Planner → Planner) : MachState :=
  match sel with
  | .p1 => { s with mp1 := f s.mp1 }
  | .p2 => { s with mp2 := f s.mp2 }

/-- Dereference a runtime selector. -/
def MachState.getRuntime (s : MachState) : RuntimeSel → Runtime
  | .r1 => s.mr1
  | .r2 => s.mr2

/-- Record one external-collaborator call in the event trace. -/
def MachState.emit (s : MachState) (e : Event) : MachState :=
  { s with events := s.events ++ [e] }

/-! External collaborators.  Each definition below models a function that
is declared but not defined in cycle_feedhold.cpp; the observable call is
recorded as an event, and the little state the embedded claims depend on
is modelled from the specification as noted. -/

/-- Modelled from the spec: planner reset(planner) empties the planner
(all queued buffers discarded).  Internals of the planner beyond the
runnable-buffer count are not modelled. -/
def planner_reset (sel : PlannerSel) (s : MachState) : MachState :=
  (s.updPlanner sel (fun p => { p with nRunnable := 0 })).emit (.plannerResetEvent sel)

/-- cm_abort_arc on a context: kills an in-flight arc (external; observable
call recorded only). -/
def cm_abort_arc (c : CmSel) (s : MachState) : MachState :=
  s.emit (.abortArc c)

/-- Modelled from the spec: cm_reset_position_to_absolute_position
(canonical_machine.cpp, not in src/) reconciles the recorded planner
position of the given context to the actual runtime position. -/
def cm_reset_position_to_absolute_position (c : CmSel) (s : MachState) : MachState :=
  let psel := (s.getCm c).mp
  let rsel := (s.getPlanner psel).mr
  ((s.updPlanner psel (fun p => { p with position := (s.getRuntime rsel).position })).emit
    (.resetPositionToAbsolute c))

/-- Modelled from the spec: cm_set_g30_position (canonical_machine.cpp,
not in src/) records the current model position of the active context as
its G30 return position ("set a return position"). -/
def cm_set_g30_position (s : MachState) : MachState :=
  ((s.updCm s.cm (fun m => { m with gmx := { m.gmx with g30_position := m.gmx.position } })).emit
    (.setG30 s.cm))

/-- Modelled from the spec: cm_set_distance_mode (canonical_machine.cpp,
not in src/) sets the Gcode distance mode of the active context. -/
def cm_set_distance_mode (dm : DistanceMode) (s : MachState) : MachState :=
  (s.updCm s.cm (fun m => { m with gm := { m.gm with distance_mode := dm } })).emit
    (.setDistanceMode dm)

/-- cm_straight_traverse: external motion issue; observable call recorded. -/
def cm_straight_traverse (target : List Int) (flags : List Bool) (s : MachState) : MachState :=
  s.emit (.straightTraverse target flags)

/-- cm_goto_g30_position: external return move through an intermediate
point; observable call recorded. -/
def cm_goto_g30_position (target : List Int) (flags : List Bool) (s : MachState) : MachState :=
  s.emit (.gotoG30 target flags)

/-- spindle_control_sync(SPINDLE_PAUSE): latched request, recorded. -/
def spindle_pause (s : MachState) : MachState := s.emit .spindlePause

/-- spindle_control_sync(SPINDLE_RESUME): latched request, recorded. -/
def spindle_resume (s : MachState) : MachState := s.emit .spindleResume

/-- coolant_control_sync(COOLANT_PAUSE, COOLANT_BOTH): recorded. -/
def coolant_pause (s : MachState) : MachState := s.emit .coolantPause

/-- coolant_control_sync(COOLANT_RESUME, COOLANT_BOTH): recorded. -/
def coolant_resume (s : MachState) : MachState := s.emit .coolantResume

/-- sr_request_status_report(SR_REQUEST_IMMEDIATE): recorded. -/
def sr_request_status_report (s : MachState) : MachState := s.emit .srRequestImmediate

/-- cm_cycle_start: external cycle start; recorded. -/
def cm_cycle_start (s : MachState) : MachState := s.emit .cycleStart

/-- st_request_exec_move: external move-execution request; recorded. -/
def st_request_exec_move (s : MachState) : MachState := s.emit .requestExecMove

/-- cm_cycle_end: external cycle end; recorded. -/
def cm_cycle_end (s : MachState) : MachState := s.emit .cycleEnd

/-- mp_queue_command: enqueue a zero-length planner command; its completion
callback fires later from interrupt context (deliverSync). -/
def mp_queue_command (t : SyncTag) (s : MachState) : MachState :=
  { s with queued := s.queued ++ [t] }

/-- Unit conversion of the Z lift distance (_to_inches).  Units are not
modelled; the conversion is the identity, which preserves the only
property the code tests (zero versus nonzero). -/
def toInches (x : Int) : Int := x

/-! The embedded functions of cycle_feedhold.cpp. -/

/-- cm_has_hold: a hold condition (or a pending hold request) exists on
the primary context. -/
def cm_has_hold (s : MachState) : Bool :=
  decide (s.cm1.hold_state ≠ FeedholdState.off)

/-- cm_feedhold_command_blocker: returns eagain while the primary context
hold state is not Off, and ok otherwise. -/
def cm_feedhold_command_blocker (s : MachState) : Stat :=
  if s.cm1.hold_state ≠ FeedholdState.off then .eagain else .ok

/-- cm_request_queue_flush: sets the flush state of the active context to
Requested. -/
def cm_request_queue_flush (s : MachState) : MachState :=
  s.updCm s.cm (fun m => { m with flush_state := .requested })

/-- cm_queue_flush on a context: abort arcs, reset the planner of that
context, and mark the flush as run. -/
def cm_queue_flush (c : CmSel) (s : MachState) : MachState :=
  let s1 := cm_abort_arc c s
  let s2 := planner_reset ((s1.getCm c).mp) s1
  s2.updCm c (fun m => { m with flush_state := .wasRun })

/-- The source _initiate_queue_flush: flushes the active context. -/
def initiate_queue_flush (s : MachState) : MachState :=
  cm_queue_flush s.cm s

/-- cm_request_cycle_start: sets the cycle-start request flag on the
active context. -/
def cm_request_cycle_start (s : MachState) : MachState :=
  s.updCm s.cm (fun m => { m with cycle_state := .startRequested })

/-- The interrupt callback _feedhold_sync_to_planner: sets the primary
hold state to HoldDone and requests an immediate status report. -/
def feedhold_sync_to_planner (s : MachState) : MachState :=
  sr_request_status_report { s with cm1 := { s.cm1 with hold_state := .holdDone } }

/-- The interrupt callback _feedhold_exit_sync_to_planner: sets the
primary hold state to HoldExitDone and requests an immediate status
report. -/
def feedhold_exit_sync_to_planner (s : MachState) : MachState :=
  sr_request_status_report { s with cm1 := { s.cm1 with hold_state := .holdExitDone } }

/-- Interrupt delivery of a queued planner completion command: runs the
callback the command was queued with. -/
def deliverSync : SyncTag → MachState → MachState
  | .feedholdSyncToPlanner, s => feedhold_sync_to_planner s
  | .feedholdExitSyncToPlanner, s => feedhold_exit_sync_to_planner s

/-- The source _feedhold_with_no_actions: a stub that completes at once. -/
def feedhold_with_no_actions (_param : List Int) (s : MachState) : Stat × MachState :=
  (.ok, s)

/-- The source _feedhold_with_sync: a stub that completes at once. -/
def feedhold_with_sync (_param : List Int) (s : MachState) : Stat × MachState :=
  (.ok, s)

/-- The source _program_stop: a stub that completes at once with no state
change. -/
def program_stop (_param : List Int) (s : MachState) : Stat × MachState :=
  (.ok, s)

/-- The source _program_end: a stub that completes at once with no state
change. -/
def program_end (_param : List Int) (s : MachState) : Stat × MachState :=
  (.ok, s)

/-- The source _alarm: a stub that completes at once with no state
change. -/
def alarmAction (_param : List Int) (s : MachState) : Stat × MachState :=
  (.ok, s)

/-- The source _shutdown: a stub that completes at once with no state
change. -/
def shutdownAction (_param : List Int) (s : MachState) : Stat × MachState :=
  (.ok, s)

/-- The source _interlock: a stub that completes at once with no state
change. -/
def interlockAction (_param : List Int) (s : MachState) : Stat × MachState :=
  (.ok, s)

/-- The source _feedhold_with_actions: the entry-action Action of a
with-actions hold.  On HoldActionStart: advance the active hold state to
HoldPending, copy the primary context into the secondary, rebind and reset
the secondary planner, force the documented fields on the copy, seed the
secondary positions from the primary runtime position, repoint the three
active handles to the secondary instances, record the G30 return
position, optionally perform the incremental Z lift (restoring the
distance mode), request spindle and coolant pause, and queue the
completion command; return eagain.  While HoldPending: eagain.  On
HoldDone: advance to Hold and complete. -/
def feedhold_with_actions (_param : List Int) (s : MachState) : Stat × MachState :=
  if s.cm1.hold_state = .holdActionStart then
    -- cm->hold_state = FEEDHOLD_HOLD_PENDING
    let s1 := s.updCm s.cm (fun m => { m with hold_state := .holdPending })
    -- memcpy(&cm2, &cm1, sizeof(cmMachine_t)); cm2.mp = &mp2; planner_reset
    let s2 := { s1 with cm2 := { s1.cm1 with mp := PlannerSel.p2 } }
    let s3 := planner_reset .p2 s2
    -- forced fields on the copy, preserving the Kahan compensation
    let s4 := { s3 with cm2 := { s3.cm2 with
                  hold_state := .off
                  flush_state := .off
                  gm := { s3.cm2.gm with
                            motion_mode := .cancel
                            absolute_override := false
                            feed_rate := 0
                            target := List.replicate 6 0
                            target_comp := s3.cm1.gm.target_comp }
                  return_flags := List.replicate 6 false
                  gmx := { s3.cm2.gmx with position := s3.mr1.position } } }
    let s5 := { s4 with
                  mp2 := { s4.mp2 with position := s4.mr1.position }
                  mr2 := { s4.mr2 with position := s4.mr1.position } }
    -- cm = &cm2; mp = (mpPlanner_t *)cm->mp; mr = mp->mr
    let s6 := { s5 with cm := CmSel.c2, mp := s5.cm2.mp
                        mr := (s5.getPlanner s5.cm2.mp).mr }
    let s7 := cm_set_g30_position s6
    let s8 :=
      if (s7.getCm s7.cm).feedhold_z_lift ≠ 0 then
        let sA := cm_set_distance_mode .incremental s7
        let sB := cm_straight_traverse
          [0, 0, toInches ((sA.getCm sA.cm).feedhold_z_lift), 0, 0, 0]
          [false, false, true, false, false, false] sA
        cm_set_distance_mode sB.cm1.gm.distance_mode sB
      else s7
    let s9 := coolant_pause (spindle_pause s8)
    (.eagain, mp_queue_command .feedholdSyncToPlanner s9)
  else if s.cm1.hold_state = .holdPending then
    (.eagain, s)
  else if s.cm1.hold_state = .holdDone then
    (.ok, { s with cm1 := { s.cm1 with hold_state := .hold } })
  else
    (.eagain, s)

/-- The source _feedhold_exit_with_no_actions: a stub that completes at
once. -/
def feedhold_exit_with_no_actions (_param : List Int) (s : MachState) : Stat × MachState :=
  (.ok, s)

/-- The source _feedhold_exit_with_actions: the exit-action Action.  On
Hold: request coolant and spindle resume, clear the Z return flag, issue
the return move to the recorded G30 position, queue the completion
command, advance to HoldExitPending; return eagain.  While
HoldExitPending: eagain.  On HoldExitDone: repoint the three active
handles back to the primary instances and, when a queue flush was run,
reconcile the primary planner position to the runtime position and clear
the flush state; complete.  The commented-out resume block of the source
is not active, so the hold state is not changed here. -/
def feedhold_exit_with_actions (_param : List Int) (s : MachState) : Stat × MachState :=
  if s.cm1.hold_state = .hold then
    let s1 := spindle_resume (coolant_resume s)
    let s2 := { s1 with cm2 := { s1.cm2 with return_flags := s1.cm2.return_flags.set 2 false } }
    let s3 := cm_goto_g30_position s2.cm2.gmx.g30_position s2.cm2.return_flags s2
    let s4 := mp_queue_command .feedholdExitSyncToPlanner s3
    (.eagain, { s4 with cm1 := { s4.cm1 with hold_state := .holdExitPending } })
  else if s.cm1.hold_state = .holdExitPending then
    (.eagain, s)
  else if s.cm1.hold_state = .holdExitDone then
    -- cm = &cm1; mp = (mpPlanner_t *)cm->mp; mr = mp->mr
    let s1 := { s with cm := CmSel.c1, mp := s.cm1.mp
                       mr := (s.getPlanner s.cm1.mp).mr }
    let s2 :=
      if s1.cm1.flush_state = .wasRun then
        let sA := cm_reset_position_to_absolute_position .c1 s1
        { sA with cm1 := { sA.cm1 with flush_state := .off } }
      else s1
    (.ok, s2)
  else
    (.eagain, s)

/-- The source _cycle_exit: when the primary planner has a runnable
buffer, start the cycle and request move execution, otherwise end the
cycle; unconditionally set the primary hold state to Off. -/
def cycle_exit (_param : List Int) (s : MachState) : Stat × MachState :=
  let s1 := if s.mp1.nRunnable ≠ 0 then st_request_exec_move (cm_cycle_start s)
            else cm_cycle_end s
  (.ok, { s1 with cm1 := { s1.cm1 with hold_state := .off } })

/-- The action functions of the file, as stored in operation slots. -/
inductive ActionTag where
  | feedholdWithActions
  | feedholdWithNoActions
  | feedholdWithSync
  | feedholdExitWithActions
  | feedholdExitWithNoActions
  | cycleExit
  | programStop
  | programEnd
  | alarmTag
  | shutdownTag
  | interlockTag
deriving DecidableEq, Repr

/-- Dispatch an action tag to the embedded action function. -/
def execAction : ActionTag → List Int → MachState → Stat × MachState
  | .feedholdWithActions, p, s => feedhold_with_actions p s
  | .feedholdWithNoActions, p, s => feedhold_with_no_actions p s
  | .feedholdWithSync, p, s => feedhold_with_sync p s
  | .feedholdExitWithActions, p, s => feedhold_exit_with_actions p s
  | .feedholdExitWithNoActions, p, s => feedhold_exit_with_no_actions p s
  | .cycleExit, p, s => cycle_exit p s
  | .programStop, p, s => program_stop p s
  | .programEnd, p, s => program_end p s
  | .alarmTag, p, s => alarmAction p s
  | .shutdownTag, p, s => shutdownAction p s
  | .interlockTag, p, s => interlockAction p s

/-- The whole mutable state: machine state plus the global operations
runner op. -/
structure Machines where
  mach : MachState
  op : CmOperation ActionTag
deriving DecidableEq, Repr

/-- The request phase of cm_request_feedhold: stores type and final on the
active context and sets its hold state to Requested. -/
def requestFeedholdSet (ty : FeedholdType) (fin : FeedholdFinal) (s : MachState) : MachState :=
  s.updCm s.cm (fun m => { m with hold_type := ty, hold_final := fin, hold_state := .requested })

/-- The source _initiate_feedhold: promote a Requested hold whose context
is actively moving.  For the primary context, queue the entry action
selected by hold_type and the termination action selected by hold_final
(the switch in the source has no case for FEEDHOLD_FINAL_CYCLE here) and
set the hold state to Sync.  Otherwise, a secondary Requested-and-running
condition queues only the sync-only action and sets the secondary state
to Sync. -/
def initiate_feedhold (m : Machines) : Machines :=
  if m.mach.cm1.hold_state = .requested ∧ m.mach.cm1.motion_state = .run then
    let op1 :=
      match m.mach.cm1.hold_type with
      | .actions => (m.op.add_action .feedholdWithActions none).2
      | .noActions => (m.op.add_action .feedholdWithNoActions none).2
      | .syncType => (m.op.add_action .feedholdWithSync none).2
    let op2 :=
      match m.mach.cm1.hold_final with
      | .stop => (op1.add_action .programStop none).2
      | .endProg => (op1.add_action .programEnd none).2
      | .alarm => (op1.add_action .alarmTag none).2
      | .shutdownFinal => (op1.add_action .shutdownTag none).2
      | .interlock => (op1.add_action .interlockTag none).2
      | .cycle => op1
    { mach := { m.mach with cm1 := { m.mach.cm1 with hold_state := .sync } }, op := op2 }
  else if m.mach.cm2.hold_state = .requested ∧ m.mach.cm2.motion_state = .run then
    { mach := { m.mach with cm2 := { m.mach.cm2 with hold_state := .sync } }
      op := (m.op.add_action .feedholdWithSync none).2 }
  else m

/-- cm_request_feedhold: store type, final and Requested on the active
context, then attempt to run the initiation immediately. -/
def cm_request_feedhold (ty : FeedholdType) (fin : FeedholdFinal) (m : Machines) : Machines :=
  initiate_feedhold { m with mach := requestFeedholdSet ty fin m.mach }

/-- The source _initiate_cycle_start.  Outside a hold: start the cycle
directly and request move execution.  In a Hold: queue the exit action
selected by hold_type (no case for the sync type) and the termination
action selected by hold_final.  In every in-hold state the operation
runner is then invoked immediately; a NULL dereference inside it
propagates as none. -/
def initiate_cycle_start (m : Machines) : Option Machines :=
  if m.mach.cm1.hold_state = .off then
    some { m with mach := st_request_exec_move (cm_cycle_start m.mach) }
  else
    let m1 :=
      if m.mach.cm1.hold_state = .hold then
        let op1 :=
          match m.mach.cm1.hold_type with
          | .actions => (m.op.add_action .feedholdExitWithActions none).2
          | .noActions => (m.op.add_action .feedholdExitWithNoActions none).2
          | .syncType => m.op
        let op2 :=
          match m.mach.cm1.hold_final with
          | .cycle => (op1.add_action .cycleExit none).2
          | .stop => (op1.add_action .programStop none).2
          | .endProg => (op1.add_action .programEnd none).2
          | .alarm => (op1.add_action .alarmTag none).2
          | .shutdownFinal => (op1.add_action .shutdownTag none).2
          | .interlock => (op1.add_action .interlockTag none).2
        { m with op := op2 }
      else m
    match CmOperation.run_operation execAction m1.op m1.mach with
    | none => none
    | some r => some { mach := r.2.2.1, op := r.2.1 }

/-- cm_operation_sequencing_callback: the per-tick poll.  Attempt feedhold
initiation when the primary hold state is Requested, run the queue flush
when the primary flush state is Requested (the active code has no
hold-reached or runtime-idle gate), attempt cycle start when requested,
and always invoke the operation runner once. -/
def cm_operation_sequencing_callback (m : Machines) : Option (Stat × Machines) :=
  let m1 := if m.mach.cm1.hold_state = .requested then initiate_feedhold m else m
  let m2 := if m1.mach.cm1.flush_state = .requested then
              { m1 with mach := initiate_queue_flush m1.mach } else m1
  match (if m2.mach.cm1.cycle_state = .startRequested then initiate_cycle_start m2
         else some m2) with
  | none => none
  | some m3 =>
    match CmOperation.run_operation execAction m3.op m3.mach with
    | none => none
    | some r => some (r.1, { mach := r.2.2.1, op := r.2.1 })

/-- Iterate the sequencing callback over n main-loop ticks. -/
def iterTicks : Nat → Machines → Option Machines
  | 0, m => some m
  | n + 1, m =>
    match cm_operation_sequencing_callback m with
    | none => none
    | some r => iterTicks n r.2

/-- Modelled from the spec: plan_exec.cpp (the motion-execution engine) is
not in src/.  For a secondary sync-only hold the nested path is
Off, Requested, Sync, Off with no entry actions: when full deceleration is
reached the engine moves the secondary hold state from Sync to Off. -/
def plan_exec_p2_hold_point (s : MachState) : MachState :=
  if s.cm2.hold_state = .sync then { s with cm2 := { s.cm2 with hold_state := .off } } else s

/-! Concrete baseline states for witnesses and counterexamples. -/

/-- A quiet Gcode model. -/
def initGm : GcodeModel :=
  { motion_mode := .other 1
    absolute_override := false
    feed_rate := 0
    distance_mode := .absolute
    target := List.replicate 6 0
    target_comp := List.replicate 6 0 }

/-- A quiet context. -/
def initCm : CmMachine :=
  { hold_state := .off
    hold_type := .actions
    hold_final := .cycle
    flush_state := .off
    cycle_state := .off
    motion_state := .stop
    feedhold_z_lift := 0
    gm := initGm
    gmx := { position := List.replicate 6 0, g30_position := List.replicate 6 0 }
    return_flags := List.replicate 6 false
    mp := .p1 }

/-- A quiet machine state: primary active, planners wired to their own
runtimes. -/
def initState : MachState :=
  { cm1 := initCm
    cm2 := { initCm with mp := .p2 }
    mp1 := { position := List.replicate 6 0, nRunnable := 0, mr := .r1 }
    mp2 := { position := List.replicate 6 0, nRunnable := 0, mr := .r2 }
    mr1 := { position := List.replicate 6 0 }
    mr2 := { position := List.replicate 6 0 }
    cm := .c1
    mp := .p1
    mr := .r1
    queued := []
    events := [] }

/-- C10: the feedhold command blocker returns Continue (eagain) exactly
when the primary hold state is not Off and ok otherwise, and cm_has_hold
reports a hold under exactly the same condition, so a merely Requested
hold already blocks commands and reports a hold.  Both observers are pure
reads of the state (their types take the state and return only a value). -/
theorem feedhold_observers_characterization (s : MachState) :
    (cm_feedhold_command_blocker s = .eagain ↔ s.cm1.hold_state ≠ .off)
    ∧ (cm_feedhold_command_blocker s = .ok ↔ s.cm1.hold_state = .off)
    ∧ (cm_has_hold s = true ↔ s.cm1.hold_state ≠ .off) := by
  unfold cm_feedhold_command_blocker cm_has_hold
  by_cases h : s.cm1.hold_state = .off <;> simp [h]

/-- C4: only the cycle-resume termination action implements the claimed
contract.  The stop, end, alarm, shutdown and interlock termination
actions are stubs: they return Complete with the state entirely unchanged,
so they neither resume motion nor end the cycle nor set the primary hold
state to Off.  The cycle-resume action (_cycle_exit) does behave as
claimed: it starts the cycle and requests execution when the primary
planner has a runnable buffer, ends the cycle otherwise, and
unconditionally clears the primary hold state. -/
theorem termination_action_stubs (p : List Int) (s : MachState) :
    program_stop p s = (.ok, s)
    ∧ program_end p s = (.ok, s)
    ∧ alarmAction p s = (.ok, s)
    ∧ shutdownAction p s = (.ok, s)
    ∧ interlockAction p s = (.ok, s)
    ∧ (cycle_exit p s).1 = .ok
    ∧ (cycle_exit p s).2.cm1.hold_state = .off
    ∧ (cycle_exit p s).2.events =
        s.events ++ (if s.mp1.nRunnable ≠ 0 then [.cycleStart, .requestExecMove]
                     else [.cycleEnd]) := by
  unfold program_stop program_end alarmAction shutdownAction interlockAction cycle_exit
  by_cases h : s.mp1.nRunnable = 0 <;>
    simp [h, cm_cycle_start, st_request_exec_move, cm_cycle_end, MachState.emit]

/-- Start state for the C5 scenario: a queue flush has been requested
while the primary context is in a hold that has not yet reached the Hold
state (hold state Sync, so the machine is still decelerating and the
runtime is not idle), with two runnable buffers still queued. -/
def c5Start : MachState :=
  { initState with
      cm1 := { initCm with
                 hold_state := .sync
                 flush_state := .requested
                 motion_state := .run }
      mp1 := { position := List.replicate 6 0, nRunnable := 2, mr := .r1 } }

/-- Exit-completion state for the C5 scenario: primary at HoldExitDone
after a flush was run, with planner and runtime positions apart. -/
def c5Exit : MachState :=
  { initState with
      cm1 := { initCm with hold_state := .holdExitDone, flush_state := .wasRun }
      mp1 := { position := [9, 9, 9, 9, 9, 9], nRunnable := 0, mr := .r1 }
      mr1 := { position := [5, 5, 5, 5, 5, 5] } }

/-- C5: the active sequencing callback runs a requested queue flush on the
very next tick even though the hold state has not reached Hold (so the
claimed gate on Hold-reached and runtime-idle is absent from the active
code: the flush state moves Requested to WasRun and the primary planner is
reset while the hold state is still Sync).  The second half of the claim
does hold: completion of the exit action at HoldExitDone after a flush was
run reconciles the primary planner position to the runtime position and
clears the flush state to Off. -/
theorem queue_flush_not_gated_on_hold :
    c5Start.cm1.hold_state = .sync
    ∧ FeedholdState.sync ≠ FeedholdState.hold
    ∧ (cm_operation_sequencing_callback { mach := c5Start, op := .initial }).map
        (fun r => (r.2.mach.cm1.flush_state, r.2.mach.cm1.hold_state, r.2.mach.mp1.nRunnable)) =
        some (.wasRun, .sync, 0)
    ∧ (feedhold_exit_with_actions [] c5Exit).1 = .ok
    ∧ (feedhold_exit_with_actions [] c5Exit).2.mp1.position = [5, 5, 5, 5, 5, 5]
    ∧ (feedhold_exit_with_actions [] c5Exit).2.cm1.flush_state = .off :=
  ⟨rfl, by decide, by rfl, by rfl, by rfl, by rfl⟩

/-- Start state for the C6 scenario: no hold anywhere, primary active,
three runnable buffers queued in the primary planner. -/
def c6Start : MachState :=
  { initState with mp1 := { position := List.replicate 6 0, nRunnable := 3, mr := .r1 } }

/-- State after a queue-flush request arrives with no hold in progress. -/
def c6Request : MachState := cm_request_queue_flush c6Start

/-- C6: a queue-flush request while the primary hold state is Off is not
ignored by the active code.  The request sets the primary flush state to
Requested, and the next sequencing tick aborts arcs and resets the primary
planner (its three runnable buffers are discarded and the flush state
becomes WasRun), contradicting the no-observable-effect claim and the
expected-behaviors comment above the callback. -/
theorem queue_flush_honored_while_hold_off :
    c6Start.cm1.hold_state = .off
    ∧ c6Request.cm1.flush_state = .requested
    ∧ (cm_operation_sequencing_callback { mach := c6Request, op := .initial }).map
        (fun r => (r.1, r.2.mach.cm1.flush_state, r.2.mach.mp1.nRunnable, r.2.mach.events)) =
        some (.noop, .wasRun, 0, [.abortArc .c1, .plannerResetEvent .p1]) :=
  ⟨rfl, rfl, by rfl⟩

/-- C2: behavior of the with-actions entry Action.  On first invocation
with the primary hold state at HoldActionStart (primary active), it
switches the three active handles to the secondary instances, sets the
primary hold state to HoldPending, enqueues the planner completion command
whose callback sets the primary hold state to HoldDone and requests an
immediate status report, requests spindle pause and coolant pause, and,
exactly when the configured Z lift distance is nonzero, issues the
incremental Z-lift traverse bracketed by the switch to incremental
distance mode and the restore of the prior distance mode; it returns
Continue.  While HoldPending it returns Continue unchanged; at HoldDone it
sets the state to Hold and returns Complete. -/
theorem feedhold_with_actions_behavior (p : List Int) (s : MachState)
    (hcm : s.cm = .c1) (hmr2 : s.mp2.mr = .r2) :
    (s.cm1.hold_state = .holdActionStart →
      (feedhold_with_actions p s).1 = .eagain
      ∧ (feedhold_with_actions p s).2.cm = .c2
      ∧ (feedhold_with_actions p s).2.mp = .p2
      ∧ (feedhold_with_actions p s).2.mr = .r2
      ∧ (feedhold_with_actions p s).2.cm1.hold_state = .holdPending
      ∧ (feedhold_with_actions p s).2.queued = s.queued ++ [.feedholdSyncToPlanner]
      ∧ (feedhold_with_actions p s).2.cm2.gm.distance_mode = s.cm1.gm.distance_mode
      ∧ (feedhold_with_actions p s).2.events =
          s.events ++ [.plannerResetEvent .p2, .setG30 .c2] ++
          (if s.cm1.feedhold_z_lift ≠ 0 then
            [.setDistanceMode .incremental,
             .straightTraverse [0, 0, toInches s.cm1.feedhold_z_lift, 0, 0, 0]
               [false, false, true, false, false, false],
             .setDistanceMode s.cm1.gm.distance_mode]
           else []) ++ [.spindlePause, .coolantPause])
    ∧ (s.cm1.hold_state = .holdPending → feedhold_with_actions p s = (.eagain, s))
    ∧ (s.cm1.hold_state = .holdDone →
        feedhold_with_actions p s =
          (.ok, { s with cm1 := { s.cm1 with hold_state := .hold } }))
    ∧ (∀ t : MachState, deliverSync .feedholdSyncToPlanner t =
        { t with cm1 := { t.cm1 with hold_state := .holdDone }
                 events := t.events ++ [.srRequestImmediate] }) := by
  refine ⟨fun hstart => ?_, fun hpend => ?_, fun hdone => ?_, fun t => ?_⟩
  · by_cases hz : s.cm1.feedhold_z_lift = 0 <;>
      simp [feedhold_with_actions, hstart, hcm, hz, hmr2, MachState.updCm,
        MachState.setCm, MachState.getCm, MachState.getPlanner, MachState.updPlanner,
        MachState.emit, planner_reset, cm_set_g30_position, cm_set_distance_mode,
        cm_straight_traverse, spindle_pause, coolant_pause, mp_queue_command, toInches]
  · simp [feedhold_with_actions, hpend]
  · simp [feedhold_with_actions, hdone]
  · simp [deliverSync, feedhold_sync_to_planner, sr_request_status_report, MachState.emit]

/-- C3: context-switch snapshot and restore semantics.  After the entry
Action runs at HoldActionStart, the secondary context is the bitwise copy
of the primary (evidenced on the fields the code does not force) with the
planner handle rebound to the secondary planner which was reset to empty,
the forced fields as documented (hold state Off, motion mode cancel,
absolute override off, flush state Off, feed rate zero, target zero,
return flags zero) while the Kahan compensation accumulator is preserved
from the primary, the current runtime position copied into the secondary
model position, planner position and runtime position, and the three
active handles repointed to the secondary instances; the primary context
itself changed only by the hold-state advance.  The restore at
HoldExitDone (when no flush was run) only repoints the three handles back
to the primary instances and copies no data. -/
theorem context_switch_snapshot_and_restore (p : List Int) (s : MachState)
    (hstart : s.cm1.hold_state = .holdActionStart) (hcm : s.cm = .c1)
    (hmr2 : s.mp2.mr = .r2) :
    ((feedhold_with_actions p s).2.cm2.hold_state = .off
     ∧ (feedhold_with_actions p s).2.cm2.gm.motion_mode = .cancel
     ∧ (feedhold_with_actions p s).2.cm2.gm.absolute_override = false
     ∧ (feedhold_with_actions p s).2.cm2.flush_state = .off
     ∧ (feedhold_with_actions p s).2.cm2.gm.feed_rate = 0
     ∧ (feedhold_with_actions p s).2.cm2.gm.target = List.replicate 6 0
     ∧ (feedhold_with_actions p s).2.cm2.return_flags = List.replicate 6 false
     ∧ (feedhold_with_actions p s).2.cm2.gm.target_comp = s.cm1.gm.target_comp
     ∧ (feedhold_with_actions p s).2.cm2.gmx.position = s.mr1.position
     ∧ (feedhold_with_actions p s).2.mp2.position = s.mr1.position
     ∧ (feedhold_with_actions p s).2.mr2.position = s.mr1.position
     ∧ (feedhold_with_actions p s).2.cm2.mp = .p2
     ∧ (feedhold_with_actions p s).2.mp2.nRunnable = 0
     ∧ (feedhold_with_actions p s).2.cm = .c2
     ∧ (feedhold_with_actions p s).2.mp = .p2
     ∧ (feedhold_with_actions p s).2.mr = .r2
     ∧ (feedhold_with_actions p s).2.cm2.hold_type = s.cm1.hold_type
     ∧ (feedhold_with_actions p s).2.cm2.hold_final = s.cm1.hold_final
     ∧ (feedhold_with_actions p s).2.cm2.motion_state = s.cm1.motion_state
     ∧ (feedhold_with_actions p s).2.cm2.cycle_state = s.cm1.cycle_state
     ∧ (feedhold_with_actions p s).2.cm2.feedhold_z_lift = s.cm1.feedhold_z_lift
     ∧ (feedhold_with_actions p s).2.cm1 = { s.cm1 with hold_state := .holdPending })
    ∧ (∀ t : MachState, t.cm1.hold_state = .holdExitDone → t.cm1.flush_state ≠ .wasRun →
        t.cm1.mp = .p1 → t.mp1.mr = .r1 →
        feedhold_exit_with_actions p t = (.ok, { t with cm := .c1, mp := .p1, mr := .r1 })) := by
  constructor
  · by_cases hz : s.cm1.feedhold_z_lift = 0 <;>
      simp [feedhold_with_actions, hstart, hcm, hz, hmr2, MachState.updCm,
        MachState.setCm, MachState.getCm, MachState.getPlanner, MachState.updPlanner,
        MachState.emit, planner_reset, cm_set_g30_position, cm_set_distance_mode,
        cm_straight_traverse, spindle_pause, coolant_pause, mp_queue_command, toInches]
  · intro t hdone hflush hmp hmr
    simp [feedhold_exit_with_actions, hdone, hflush, hmp, hmr,
      MachState.getPlanner]

/-- Concrete hold-entry state: primary active at HoldActionStart with a
nonzero configured Z lift. -/
def c2Start : MachState :=
  { initState with
      cm1 := { initCm with hold_state := .holdActionStart, feedhold_z_lift := 1 } }

/-- C2 witness: the entry-action behavior evaluated on a concrete state at
HoldActionStart. -/
theorem feedhold_with_actions_behavior_witness :
    c2Start.cm1.hold_state = .holdActionStart
    ∧ (feedhold_with_actions [] c2Start).1 = .eagain
    ∧ (feedhold_with_actions [] c2Start).2.cm = .c2 :=
  ⟨rfl, ((feedhold_with_actions_behavior [] c2Start rfl rfl).1 rfl).1,
    ((feedhold_with_actions_behavior [] c2Start rfl rfl).1 rfl).2.1⟩

/-- Concrete hold-exit completion state: primary at HoldExitDone with no
flush run, secondary instances still active. -/
def c3Exit : MachState :=
  { initState with
      cm1 := { initCm with hold_state := .holdExitDone }
      cm := .c2
      mp := .p2
      mr := .r2 }

/-- C3 witness: the snapshot conclusion and the handle-only restore
evaluated on concrete states. -/
theorem context_switch_snapshot_and_restore_witness :
    (feedhold_with_actions [] c2Start).2.cm2.hold_state = .off
    ∧ feedhold_exit_with_actions [] c3Exit =
        (.ok, { c3Exit with cm := .c1, mp := .p1, mr := .r1 }) :=
  ⟨(context_switch_snapshot_and_restore [] c2Start rfl rfl rfl).1.1,
    (context_switch_snapshot_and_restore [] c2Start rfl rfl rfl).2 c3Exit rfl
      (by decide) rfl rfl⟩

/-- C7: a feedhold requested while the primary context is already in a
hold (active context secondary and moving) sets the secondary hold state
to Requested and immediately promotes it to Sync, queueing only the
sync-only Action: the primary context, the three active handles and the
event trace are untouched (no Context Switch), delivery of the hold point
by the motion engine takes the secondary state to Off, and running the
queued operation invokes only the sync-only action, which changes
nothing — no entry action is re-run. -/
theorem nested_feedhold_sync_only (ty : FeedholdType) (fin : FeedholdFinal) (m : Machines)
    (hHold : m.mach.cm1.hold_state = .hold)
    (hAct : m.mach.cm = .c2)
    (hRun : m.mach.cm2.motion_state = .run)
    (hOp : m.op = CmOperation.initial) :
    (requestFeedholdSet ty fin m.mach).cm2.hold_state = .requested
    ∧ (cm_request_feedhold ty fin m).mach.cm2.hold_state = .sync
    ∧ (cm_request_feedhold ty fin m).op.add = 1
    ∧ ((cm_request_feedhold ty fin m).op.action.getD 0 dfltAction).func =
        some ActionTag.feedholdWithSync
    ∧ (cm_request_feedhold ty fin m).mach.cm1 = m.mach.cm1
    ∧ (cm_request_feedhold ty fin m).mach.cm = m.mach.cm
    ∧ (cm_request_feedhold ty fin m).mach.mp = m.mach.mp
    ∧ (cm_request_feedhold ty fin m).mach.mr = m.mach.mr
    ∧ (cm_request_feedhold ty fin m).mach.events = m.mach.events
    ∧ (plan_exec_p2_hold_point (cm_request_feedhold ty fin m).mach).cm2.hold_state = .off
    ∧ (∀ t : MachState,
        CmOperation.run_operation execAction (cm_request_feedhold ty fin m).op t =
          some (.ok, CmOperation.initial, t,
                [(.feedholdWithSync, List.replicate PARAM_MAX 0)])) := by
  obtain ⟨ms, mop⟩ := m
  replace hOp : mop = CmOperation.initial := hOp
  subst hOp
  replace hHold : ms.cm1.hold_state = .hold := hHold
  replace hAct : ms.cm = .c2 := hAct
  replace hRun : ms.cm2.motion_state = .run := hRun
  have key : cm_request_feedhold ty fin ⟨ms, CmOperation.initial⟩ =
      ⟨{ ms with cm2 :=
           { ms.cm2 with
               hold_type := ty
               hold_final := fin
               hold_state := .sync } },
        (CmOperation.initial.add_action ActionTag.feedholdWithSync none).2⟩ := by
    simp [cm_request_feedhold, requestFeedholdSet, initiate_feedhold, MachState.updCm,
      MachState.setCm, MachState.getCm, hAct, hHold, hRun]
  rw [key]
  refine ⟨?_, rfl, by rfl, by rfl, rfl, rfl, rfl, rfl, rfl, ?_, fun t => rfl⟩
  · simp [requestFeedholdSet, MachState.updCm, MachState.setCm, MachState.getCm, hAct]
  · simp [plan_exec_p2_hold_point]

/-- Concrete nested-hold state: primary held, secondary active and
moving, runner idle. -/
def c7State : Machines :=
  { mach := { initState with
      cm1 := { initCm with hold_state := .hold }
      cm2 := { initCm with mp := .p2, motion_state := .run }
      cm := .c2
      mp := .p2
      mr := .r2 }
    op := .initial }

/-- C7 witness: the nested-feedhold behavior evaluated on a concrete
in-hold state. -/
theorem nested_feedhold_sync_only_witness :
    (cm_request_feedhold .actions .stop c7State).mach.cm2.hold_state = .sync
    ∧ (cm_request_feedhold .actions .stop c7State).mach.cm1 = c7State.mach.cm1 :=
  ⟨(nested_feedhold_sync_only .actions .stop c7State rfl rfl rfl rfl).2.1,
    (nested_feedhold_sync_only .actions .stop c7State rfl rfl rfl rfl).2.2.2.2.1⟩

/-! Helper lemmas for the per-tick invariant of a stationary Requested
hold (claim C8). -/

/-- A planner update leaves the primary context untouched. -/
theorem updPlanner_cm1 (s : MachState) (sel : PlannerSel) (f : Planner → Planner) :
    (s.updPlanner sel f).cm1 = s.cm1 := by
  cases sel <;> rfl

/-- The queue flush of the active context does not change the primary
hold state or motion state (it touches flush state, planner and trace
only). -/
theorem initiate_queue_flush_preserves (s : MachState) :
    (initiate_queue_flush s).cm1.hold_state = s.cm1.hold_state
    ∧ (initiate_queue_flush s).cm1.motion_state = s.cm1.motion_state := by
  unfold initiate_queue_flush cm_queue_flush cm_abort_arc planner_reset
  cases hc : s.cm <;>
    simp [MachState.updCm, MachState.setCm, MachState.getCm, MachState.emit, updPlanner_cm1]

/-- The sync-only operation queued for a nested hold. -/
def opSyncOnly : CmOperation ActionTag :=
  (CmOperation.initial.add_action .feedholdWithSync none).2

/-- Running an idle runner is a harmless noop. -/
theorem run_operation_initial_noop (s : MachState) :
    CmOperation.run_operation execAction CmOperation.initial s =
      some (.noop, CmOperation.initial, s, []) := rfl

/-- Running the sync-only operation completes at once without touching
the machine state and leaves the runner idle. -/
theorem run_operation_sync_only (s : MachState) :
    CmOperation.run_operation execAction opSyncOnly s =
      some (.ok, CmOperation.initial, s,
            [(.feedholdWithSync, List.replicate PARAM_MAX 0)]) := rfl

/-- When the primary context is stationary, feedhold initiation reduces to
the secondary branch. -/
theorem initiate_feedhold_stationary (m : Machines)
    (h2 : m.mach.cm1.motion_state ≠ .run) :
    initiate_feedhold m =
      if m.mach.cm2.hold_state = .requested ∧ m.mach.cm2.motion_state = .run then
        { mach := { m.mach with cm2 := { m.mach.cm2 with hold_state := .sync } }
          op := (m.op.add_action .feedholdWithSync none).2 }
      else m := by
  unfold initiate_feedhold
  rw [if_neg fun h => h2 h.2]

/-- With the primary hold state at Requested, cycle-start initiation
queues nothing and just runs the operation runner. -/
theorem initiate_cycle_start_requested (m : Machines)
    (h : m.mach.cm1.hold_state = .requested) :
    initiate_cycle_start m =
      match CmOperation.run_operation execAction m.op m.mach with
      | none => none
      | some r => some { mach := r.2.2.1, op := r.2.1 } := by
  unfold initiate_cycle_start
  rw [if_neg (by simp [h]), if_neg (by simp [h])]

/-- One sequencing tick on a stationary context with a Requested primary
hold and an idle runner: the tick succeeds with a harmless status, the
primary hold state stays Requested, the motion state is unchanged, and
the runner returns to idle. -/
theorem tick_keeps_requested (m : Machines)
    (h1 : m.mach.cm1.hold_state = .requested)
    (h2 : m.mach.cm1.motion_state ≠ .run)
    (h3 : m.op = CmOperation.initial) :
    ∃ st m', cm_operation_sequencing_callback m = some (st, m')
      ∧ (st = .noop ∨ st = .ok)
      ∧ m'.mach.cm1.hold_state = .requested
      ∧ m'.mach.cm1.motion_state = m.mach.cm1.motion_state
      ∧ m'.op = CmOperation.initial := by
  have hstage1 : ∃ m1,
      (if m.mach.cm1.hold_state = .requested then initiate_feedhold m else m) = m1
      ∧ m1.mach.cm1 = m.mach.cm1
      ∧ (m1.op = CmOperation.initial ∨ m1.op = opSyncOnly) := by
    rw [if_pos h1, initiate_feedhold_stationary m h2]
    by_cases hc2 : m.mach.cm2.hold_state = .requested ∧ m.mach.cm2.motion_state = .run
    · rw [if_pos hc2]
      exact ⟨_, rfl, rfl, Or.inr (by rw [h3]; rfl)⟩
    · rw [if_neg hc2]
      exact ⟨m, rfl, rfl, Or.inl h3⟩
  obtain ⟨m1, e1, f1, g1⟩ := hstage1
  have hstage2 : ∃ m2,
      (if m1.mach.cm1.flush_state = .requested then
        { m1 with mach := initiate_queue_flush m1.mach } else m1) = m2
      ∧ m2.mach.cm1.hold_state = .requested
      ∧ m2.mach.cm1.motion_state = m.mach.cm1.motion_state
      ∧ (m2.op = CmOperation.initial ∨ m2.op = opSyncOnly) := by
    by_cases hfl : m1.mach.cm1.flush_state = .requested
    · rw [if_pos hfl]
      refine ⟨_, rfl, ?_, ?_, g1⟩
      · rw [show ({ m1 with mach := initiate_queue_flush m1.mach } : Machines).mach.cm1.hold_state
            = (initiate_queue_flush m1.mach).cm1.hold_state from rfl,
          (initiate_queue_flush_preserves m1.mach).1, f1, h1]
      · rw [show ({ m1 with mach := initiate_queue_flush m1.mach } : Machines).mach.cm1.motion_state
            = (initiate_queue_flush m1.mach).cm1.motion_state from rfl,
          (initiate_queue_flush_preserves m1.mach).2, f1]
    · rw [if_neg hfl]
      exact ⟨m1, rfl, by rw [f1, h1], by rw [f1], g1⟩
  obtain ⟨m2, e2, f2, f2m, g2⟩ := hstage2
  have hstage3 : ∃ m3,
      (if m2.mach.cm1.cycle_state = .startRequested then initiate_cycle_start m2
       else some m2) = some m3
      ∧ m3.mach = m2.mach
      ∧ (m3.op = CmOperation.initial ∨ m3.op = opSyncOnly) := by
    by_cases hcy : m2.mach.cm1.cycle_state = .startRequested
    · rw [if_pos hcy, initiate_cycle_start_requested m2 f2]
      rcases g2 with hop | hop
      · rw [hop, run_operation_initial_noop]
        exact ⟨_, rfl, rfl, Or.inl rfl⟩
      · rw [hop, run_operation_sync_only]
        exact ⟨_, rfl, rfl, Or.inl rfl⟩
    · rw [if_neg hcy]
      exact ⟨m2, rfl, rfl, g2⟩
  obtain ⟨m3, e3, f3, g3⟩ := hstage3
  have hrun : ∃ st, (st = Stat.noop ∨ st = Stat.ok)
      ∧ CmOperation.run_operation execAction m3.op m3.mach =
          some (st, CmOperation.initial, m3.mach,
                if m3.op = CmOperation.initial then []
                else [(.feedholdWithSync, List.replicate PARAM_MAX 0)]) := by
    rcases g3 with hop | hop
    · refine ⟨.noop, Or.inl rfl, ?_⟩
      rw [hop, run_operation_initial_noop, if_pos rfl]
    · refine ⟨.ok, Or.inr rfl, ?_⟩
      rw [hop, run_operation_sync_only,
        if_neg (show ¬(opSyncOnly = CmOperation.initial) by decide)]
  obtain ⟨st, hst, hrun⟩ := hrun
  refine ⟨st, { mach := m3.mach, op := CmOperation.initial }, ?_, hst, ?_, ?_, rfl⟩
  · simp only [cm_operation_sequencing_callback]
    rw [e1, e2, e3]
    simp only []
    rw [hrun]
  · rw [show ({ mach := m3.mach, op := CmOperation.initial } : Machines).mach = m3.mach from rfl,
      f3, f2]
  · rw [show ({ mach := m3.mach, op := CmOperation.initial } : Machines).mach = m3.mach from rfl,
      f3, f2m]

/-- C8: a feedhold requested while the context is not actively moving is
silently absorbed: with the primary hold state at Requested and the
primary motion state not Run, after any number of subsequent sequencing
ticks the hold state still reads Requested (it never progresses past
Requested while motion has not resumed), and the next tick always
completes with the harmless status NoOp or Complete, never an error. -/
theorem feedhold_request_absorbed_while_stationary (m : Machines)
    (h1 : m.mach.cm1.hold_state = .requested)
    (h2 : m.mach.cm1.motion_state ≠ .run)
    (h3 : m.op = CmOperation.initial) :
    ∀ n, ∃ m', iterTicks n m = some m'
      ∧ m'.mach.cm1.hold_state = .requested
      ∧ ∃ st m'', cm_operation_sequencing_callback m' = some (st, m'')
          ∧ (st = .noop ∨ st = .ok) := by
  intro n
  induction n generalizing m with
  | zero =>
    refine ⟨m, rfl, h1, ?_⟩
    obtain ⟨st, m'', hcb, hst, -, -, -⟩ := tick_keeps_requested m h1 h2 h3
    exact ⟨st, m'', hcb, hst⟩
  | succ k ih =>
    obtain ⟨st, m', hcb, hst, hh1, hmot, hop⟩ := tick_keeps_requested m h1 h2 h3
    have h2' : m'.mach.cm1.motion_state ≠ .run := by rw [hmot]; exact h2
    obtain ⟨mf, hiter, hreq, hlast⟩ := ih m' hh1 h2' hop
    refine ⟨mf, ?_, hreq, hlast⟩
    simp only [iterTicks]
    rw [hcb]
    exact hiter

/-- Concrete stationary-request state for the C8 witness. -/
def c8State : Machines :=
  { mach := { initState with cm1 := { initCm with hold_state := .requested } }
    op := .initial }

/-- C8 witness: after three ticks on a concrete stationary state the hold
state still reads Requested and the next tick returns a harmless
status. -/
theorem feedhold_request_absorbed_witness :
    ∃ m', iterTicks 3 c8State = some m'
      ∧ m'.mach.cm1.hold_state = .requested
      ∧ ∃ st m'', cm_operation_sequencing_callback m' = some (st, m'')
          ∧ (st = .noop ∨ st = .ok) :=
  feedhold_request_absorbed_while_stationary c8State rfl (by decide) rfl 3

end G2Feedhold
